import Mathlib

/-!
Verification development for the metro-sathi transit route finder.

The repository is a TypeScript web application.  The definitions below are a
shallow embedding of the pure logic of its station parser, geocoding fallback,
route generators and geo-math helpers:

* JavaScript numbers appearing in route arithmetic are modelled as `ℚ`
  (the arithmetic performed there — products by constants such as 1.5, 15, 4
  and `Math.round` — is exact on the decimal inputs involved);
* the float-valued great-circle distance helpers (`calculateDistance`,
  `haversineDistance`) are transcendental and are passed to each consumer as
  an explicit function parameter `dist`/`hav`, mirroring their role as an
  opaque numeric oracle in the consuming code;
* external asynchronous inputs (Overpass responses, loaded network snapshots,
  the same-line Overpass probe, `Date.now`/`Math.random` id material) enter
  each embedded function as explicit parameters;
* the spherical-interpolation helper of the navigation view, which manipulates
  raw IEEE values and contains a NaN-producing slip, is modelled over an
  explicit JavaScript-number type with a NaN element.
-/

namespace MetroSathi

/-- JavaScript `Math.round`: round half towards positive infinity. -/
def jsRound (q : ℚ) : ℤ := ⌊q + 1/2⌋

/-- A WGS84 coordinate `{lat, lng}` in decimal degrees. -/
structure Coord where
  lat : ℚ
  lng : ℚ
deriving DecidableEq

/-- Station classification used throughout the repository: `"metro" | "bus"`. -/
inductive StationType where
  | metro
  | bus
deriving DecidableEq

/-- `type` of a route step: `"walk" | "metro" | "bus"`. -/
inductive StepType where
  | walk
  | metro
  | bus
deriving DecidableEq

/-- The station-type word used when splicing the type into instruction text. -/
def stationTypeName : StationType → String
  | .metro => "metro"
  | .bus => "bus"

/-- Map a station type onto the corresponding transit step type. -/
def stepOfStationType : StationType → StepType
  | .metro => StepType.metro
  | .bus => StepType.bus

/-- JavaScript string truthiness: `undefined` and `""` are falsy. -/
def strTruthy : Option String → Bool
  | none => false
  | some s => !(s == "")

/-- JavaScript `a || b` on an optional string with a string fallback. -/
def orElseStr (a : Option String) (b : String) : String :=
  match a with
  | some s => if s == "" then b else s
  | none => b

/-- JavaScript `s || "unknown"` on a (non-optional) string field. -/
def orUnknown (s : String) : String :=
  if s == "" then "unknown" else s

/-- JavaScript `s.includes(sub)`: `sub` occurs contiguously in `s`. -/
def jsIncludes (s sub : String) : Bool :=
  decide (sub.toList <:+: s.toList)

/-- The OSM tag fields read by the station parser (`src/unnamed/part_000`).
`none` models an absent tag; `nameEn` stands for `name:en` and `addrCity`
for `addr:city`. -/
structure Tags where
  railway : Option String := none
  station : Option String := none
  network : Option String := none
  name : Option String := none
  nameEn : Option String := none
  ref : Option String := none
  addrCity : Option String := none
  city : Option String := none
deriving DecidableEq

/-- One element of an Overpass `elements` array, with the fields the parser
reads: `type`, `id`, optional `lat`/`lon`, optional way `center`, optional
`tags`. -/
structure OsmElement where
  type : String
  id : ℤ
  lat : Option ℚ := none
  lon : Option ℚ := none
  center : Option Coord := none
  tags : Option Tags := none
deriving DecidableEq

/-- A parsed station record (`Station` of `src/data/stations` as produced by
`processOsmData`, including the contextual `distance` field). -/
structure Station where
  id : String
  name : String
  type : StationType
  city : String
  location : Coord
  distance : ℚ
  osmTags : Tags := {}
  network : String := "unknown"
deriving DecidableEq

/-- A named location (`Location` interfaces of the routing modules). -/
structure Location where
  name : String
  coordinates : Coord
deriving DecidableEq

/-- One leg of a route (`RouteStep`).  The source fields `from`/`to` are named
`fromName`/`toName` here because `from` is a Lean keyword. -/
structure RouteStep where
  type : StepType
  fromName : String
  toName : String
  duration : ℤ
  distance : ℚ
  instructions : Option String := none
  location : Option Coord := none
deriving DecidableEq

/-- A generated route (`Route`). -/
structure Route where
  id : String
  duration : ℤ
  steps : List RouteStep
deriving DecidableEq

/-- `steps.reduce((sum, step) => sum + step.duration, 0)`. -/
def sumDurations (steps : List RouteStep) : ℤ :=
  steps.foldl (fun sum step => sum + step.duration) 0

/-- A metro line of the loaded network snapshot; the route-generation logic of
`src/unnamed/part_003` reads only its `city` field. -/
structure MetroLine where
  city : String
deriving DecidableEq

/-! ## Station parser (`processOsmData`, `src/unnamed/part_000` lines 101-168) -/

/-- `let lat = element.lat; if (element.type === "way" && element.center)
lat = element.center.lat`. -/
def effLat (e : OsmElement) : Option ℚ :=
  match e.center with
  | some c => if e.type == "way" then some c.lat else e.lat
  | none => e.lat

/-- Longitude counterpart of `effLat`. -/
def effLon (e : OsmElement) : Option ℚ :=
  match e.center with
  | some c => if e.type == "way" then some c.lng else e.lon
  | none => e.lon

/-- Station classification of the parser (`part_000` lines 125-133): an OR
chain over `railway === "station"`, `station === "subway"`,
`station === "metro"` and `network === "Delhi Metro"`; `bus` otherwise. -/
def stationTypeOfTags (tags : Tags) : StationType :=
  if tags.railway = some "station" ∨ tags.station = some "subway" ∨
      tags.station = some "metro" ∨ tags.network = some "Delhi Metro" then
    StationType.metro
  else
    StationType.bus

/-- Name fallback chain (`part_000` lines 136-140):
`tags.name || tags["name:en"] || tags.ref || "<Type> Station"`. -/
def stationNameOfTags (tags : Tags) (stype : StationType) : String :=
  orElseStr tags.name (orElseStr tags.nameEn (orElseStr tags.ref
    (match stype with
      | .metro => "Metro Station"
      | .bus => "Bus Station")))

/-- City attribution (`detectCity`, `part_000` lines 173-179). -/
def detectCity (tags : Tags) : String :=
  if tags.network = some "Delhi Metro" then "Delhi"
  else if strTruthy tags.addrCity then orElseStr tags.addrCity ""
  else if strTruthy tags.city then orElseStr tags.city ""
  else if (match tags.network with
            | some n => jsIncludes n "Delhi"
            | none => false) then "Delhi"
  else "unknown"

/-- The per-element loop of `processOsmData` with the `seenNames` set made
explicit.  `hav` is the float-valued `haversineDistance` helper, supplied as
an oracle; its four arguments are `centerLat centerLng lat lon`. -/
def processOsmDataAux (hav : ℚ → ℚ → ℚ → ℚ → ℚ) (centerLat centerLng : ℚ) :
    List OsmElement → List String → List Station
  | [], _ => []
  | e :: rest, seenNames =>
    match e.tags with
    | none => processOsmDataAux hav centerLat centerLng rest seenNames
    | some tags =>
      match effLat e, effLon e with
      | some lat, some lon =>
        -- `if (!lat || !lon) continue`: a coordinate equal to 0 is falsy
        if lat = 0 ∨ lon = 0 then
          processOsmDataAux hav centerLat centerLng rest seenNames
        else
          let stype := stationTypeOfTags tags
          let name := stationNameOfTags tags stype
          if seenNames.contains name then
            processOsmDataAux hav centerLat centerLng rest seenNames
          else
            { id := "osm-" ++ toString e.id
              name := name
              type := stype
              city := detectCity tags
              location := { lat := lat, lng := lon }
              distance := hav centerLat centerLng lat lon
              osmTags := tags
              network := orElseStr tags.network "unknown" }
              :: processOsmDataAux hav centerLat centerLng rest (name :: seenNames)
      | _, _ => processOsmDataAux hav centerLat centerLng rest seenNames

/-- `processOsmData(osmData, centerLat, centerLng)` on the `elements` array of
a well-formed response (the guard for a missing or non-array `elements` field
returns `[]` and is subsumed by passing the empty list). -/
def processOsmData (hav : ℚ → ℚ → ℚ → ℚ → ℚ) (centerLat centerLng : ℚ)
    (elements : List OsmElement) : List Station :=
  processOsmDataAux hav centerLat centerLng elements []

/-- Modelled from the spec: the classification criterion as §4.3 of the
specification words it — metro exactly when `railway=station` AND
`station ∈ {subway, metro}`, or the known named network (`Delhi Metro`,
the only network name the parser knows).  Stated for comparison with
`stationTypeOfTags`, which is translated from the source. -/
def specIsMetro (tags : Tags) : Prop :=
  (tags.railway = some "station" ∧
    (tags.station = some "subway" ∨ tags.station = some "metro")) ∨
  tags.network = some "Delhi Metro"

instance (tags : Tags) : Decidable (specIsMetro tags) := by
  unfold specIsMetro; infer_instance

/-! ## Geocoding resolver (`getCoordinatesForLocation`, `src/utils/distance.ts`
lines 45-91) -/

/-- The mock geocoding table, in source order (JavaScript object literal keys
keep insertion order for `Object.entries`). -/
def locationsTable : List (String × Coord) :=
  [ ("ahmedabad airport", { lat := 23.0734, lng := 72.6346 }),
    ("motera stadium", { lat := 23.0917, lng := 72.5972 }),
    ("sabarmati ashram", { lat := 23.0763, lng := 72.5929 }),
    ("science city", { lat := 23.0726, lng := 72.503 }),
    ("kankaria lake", { lat := 23.008, lng := 72.6036 }),
    ("mumbai airport", { lat := 19.0896, lng := 72.8656 }),
    ("gateway of india", { lat := 18.922, lng := 72.8347 }),
    ("marine drive", { lat := 18.9442, lng := 72.8237 }),
    ("india gate", { lat := 28.6129, lng := 77.2295 }),
    ("red fort", { lat := 28.6562, lng := 77.241 }),
    ("qutub minar", { lat := 28.5245, lng := 77.1855 }),
    ("kudasan gandhinagar gujarat", { lat := 23.1865, lng := 72.6366 }),
    ("infocity gandhinagar", { lat := 23.2156, lng := 72.6369 }),
    ("gift city gandhinagar", { lat := 23.1618, lng := 72.6841 }),
    ("mahatma mandir gandhinagar", { lat := 23.2156, lng := 72.6536 }),
    ("akshardham gandhinagar", { lat := 23.2287, lng := 72.6719 }) ]

/-- The lookup half of `getCoordinatesForLocation`: exact key match on the
lowercased name, then the first entry whose key contains or is contained in
the name.  `none` means the final fallback branch is reached. -/
def lookupLocation (locationName : String) : Option Coord :=
  let normalizedName := locationName.toLower
  match locationsTable.lookup normalizedName with
  | some coords => some coords
  | none =>
    (locationsTable.find? (fun kv =>
        jsIncludes normalizedName kv.1 || jsIncludes kv.1 normalizedName)).map Prod.snd

/-- `getCoordinatesForLocation(locationName)`.  The two `Math.random()` draws
of the no-match branch are the parameters `r1 r2`.  On no match the source
returns `{ lat: 23.0225 + Math.random() * 0.05, lng: 72.5714 +
Math.random() * 0.05 }` — a coordinate, not `null`. -/
def getCoordinatesForLocation (r1 r2 : ℚ) (locationName : String) : Option Coord :=
  match lookupLocation locationName with
  | some coords => some coords
  | none => some { lat := 23.0225 + r1 * 0.05, lng := 72.5714 + r2 * 0.05 }

/-! ## JavaScript numbers with NaN, and the great-circle interpolation of the
navigation view (`src/unnamed/part_008` lines 270-308)

`JSNum` models a JavaScript number as either a real value or a non-finite
element `nan`; `undef` is the value `undefined`, which arithmetic coerces to
NaN.  The model folds the IEEE infinities into `nan` (see `jsDiv`): none of
the operations traced below ever turns a non-finite operand back into a
finite result, so the collapse is sound for the statements proved here. -/

inductive JSNum where
  | num (x : ℝ)
  | nan
  | undef

/-- JavaScript multiplication: any non-finite or undefined operand gives NaN
(`undefined` coerces to NaN; NaN is absorbing). -/
noncomputable def jsMul : JSNum → JSNum → JSNum
  | .num a, .num b => .num (a * b)
  | _, _ => .nan

/-- JavaScript addition, same non-finite convention as `jsMul`. -/
noncomputable def jsAdd : JSNum → JSNum → JSNum
  | .num a, .num b => .num (a + b)
  | _, _ => .nan

/-- JavaScript subtraction. -/
noncomputable def jsSub : JSNum → JSNum → JSNum
  | .num a, .num b => .num (a - b)
  | _, _ => .nan

open Classical in
/-- JavaScript division.  `0 / 0` is NaN; a nonzero numerator over zero is
±Infinity in JavaScript, folded into `nan` here (never distinguished below). -/
noncomputable def jsDiv : JSNum → JSNum → JSNum
  | .num a, .num b => if b = 0 then .nan else .num (a / b)
  | _, _ => .nan

/-- `Math.sin`. -/
noncomputable def jsSin : JSNum → JSNum
  | .num x => .num (Real.sin x)
  | _ => .nan

/-- `Math.cos`. -/
noncomputable def jsCos : JSNum → JSNum
  | .num x => .num (Real.cos x)
  | _ => .nan

open Classical in
/-- `Math.sqrt`; negative arguments give NaN. -/
noncomputable def jsSqrt : JSNum → JSNum
  | .num x => if x < 0 then .nan else .num (Real.sqrt x)
  | _ => .nan

/-- `Math.atan2(y, x)`; NaN if either argument is non-finite.  On finite
arguments it is the argument of the complex number `x + y i`, which lies in
`(-π, π]` like the JavaScript function. -/
noncomputable def jsAtan2 : JSNum → JSNum → JSNum
  | .num y, .num x => .num (Complex.arg { re := x, im := y })
  | _, _ => .nan

/-- `toRad(degrees) = (degrees * Math.PI) / 180`. -/
noncomputable def jsToRad (degrees : JSNum) : JSNum :=
  jsDiv (jsMul degrees (.num Real.pi)) (.num 180)

/-- `toDeg(radians) = (radians * 180) / Math.PI`. -/
noncomputable def jsToDeg (radians : JSNum) : JSNum :=
  jsDiv (jsMul radians (.num 180)) (.num Real.pi)

/-- `intermediatePointOnGreatCircle(lat1, lon1, lat2, lon2, fraction)` from
`src/unnamed/part_008`.  The source lines 285 and 289 read
`const coslam1 = Math.coslam1` and `const coslam2 = Math.coslam2`: these access
nonexistent properties of the `Math` object and yield `undefined` (the
intended expressions were `Math.cos(lam1)` / `Math.cos(lam2)`). -/
noncomputable def intermediatePointOnGreatCircle
    (lat1 lon1 lat2 lon2 fraction : JSNum) : JSNum × JSNum :=
  let φ1 := jsToRad lat1
  let lam1 := jsToRad lon1
  let φ2 := jsToRad lat2
  let lam2 := jsToRad lon2
  let sinφ1 := jsSin φ1
  let cosφ1 := jsCos φ1
  let sinlam1 := jsSin lam1
  let coslam1 := JSNum.undef
  let sinφ2 := jsSin φ2
  let cosφ2 := jsCos φ2
  let sinlam2 := jsSin lam2
  let coslam2 := JSNum.undef
  let Δφ := jsSub φ2 φ1
  let Dlam := jsSub lam2 lam1
  let a := jsAdd
    (jsMul (jsSin (jsDiv Δφ (.num 2))) (jsSin (jsDiv Δφ (.num 2))))
    (jsMul (jsMul (jsCos φ1) (jsCos φ2))
      (jsMul (jsSin (jsDiv Dlam (.num 2))) (jsSin (jsDiv Dlam (.num 2)))))
  let δ := jsMul (.num 2) (jsAtan2 (jsSqrt a) (jsSqrt (jsSub (.num 1) a)))
  let A := jsDiv (jsSin (jsMul (jsSub (.num 1) fraction) δ)) (jsSin δ)
  let B := jsDiv (jsSin (jsMul fraction δ)) (jsSin δ)
  let x := jsAdd (jsMul (jsMul A cosφ1) coslam1) (jsMul (jsMul B cosφ2) coslam2)
  let y := jsAdd (jsMul (jsMul A cosφ1) sinlam1) (jsMul (jsMul B cosφ2) sinlam2)
  let z := jsAdd (jsMul A sinφ1) (jsMul B sinφ2)
  let φ3 := jsAtan2 z (jsSqrt (jsAdd (jsMul x x) (jsMul y y)))
  let lam3 := jsAtan2 y x
  (jsToDeg φ3, jsToDeg lam3)

/-! ## Shared sorting helpers

JavaScript `Array.prototype.sort` with comparator `(a, b) => a.x - b.x` is a
stable ascending sort; both are modelled with the stable `List.mergeSort`. -/

/-- `.sort((a, b) => a.distance! - b.distance!)`. -/
def sortByDistance (stations : List Station) : List Station :=
  stations.mergeSort (fun a b => a.distance ≤ b.distance)

/-- `.sort((a, b) => a.duration - b.duration)`. -/
def sortByDuration (routes : List Route) : List Route :=
  routes.mergeSort (fun a b => a.duration ≤ b.duration)

/-! ## Route generator of `src/unnamed/part_003`

External inputs made explicit: `dist` is `calculateDistance` from
`src/utils/distance.ts` (float Haversine, an opaque numeric oracle here);
`metroLines` is the `lines` array of the metro network snapshot loaded by
`loadMetroNetworkData`; the four station lists are what
`findNearestMetroStations` / `findNearestBusStations` returned for each
endpoint; `mkId` supplies the `route-${Date.now()}-${Math.random()...}`
identifier for a pair. -/

/-- `findNearestTransitStations(location, maxResults, maxDistanceKm)`
(`part_003` lines 56-89): filter both fetched lists by the distance cap,
concatenate metro before bus, sort the merge by distance, truncate.  (The
`stationCityCache` writes feed only commented-out code and are dropped.) -/
def findNearestTransitStations (metroStations busStations : List Station)
    (maxResults : ℕ) (maxDistanceKm : ℚ) : List Station :=
  let filteredMetroStations := metroStations.filter (fun s => s.distance ≤ maxDistanceKm)
  let filteredBusStations := busStations.filter (fun s => s.distance ≤ maxDistanceKm)
  (sortByDistance (filteredMetroStations ++ filteredBusStations)).take maxResults

/-- `areMetroStationsConnected` (`part_003` lines 111-146): same named
network, else any snapshot line whose city equals the first station's city. -/
def areMetroStationsConnected (metroLines : List MetroLine)
    (station1 station2 : Station) : Bool :=
  let network1 := orUnknown station1.network
  let network2 := orUnknown station2.network
  if network1 ≠ "unknown" ∧ network2 ≠ "unknown" ∧ network1 = network2 then
    true
  else
    metroLines.any (fun line => line.city.toLower == station1.city.toLower)

/-- `areBusStationsConnected` (`part_003` lines 151-177): after the network
check the source unconditionally returns `true`. -/
def areBusStationsConnected (station1 station2 : Station) : Bool :=
  let network1 := orUnknown station1.network
  let network2 := orUnknown station2.network
  if network1 ≠ "unknown" ∧ network2 ≠ "unknown" ∧ network1 = network2 then
    true
  else
    true

/-- `areTransitStationsConnected` (`part_003` lines 182-215). -/
def areTransitStationsConnected (dist : Coord → Coord → ℚ)
    (metroLines : List MetroLine) (station1 station2 : Station) : Bool :=
  let city1 := orUnknown station1.city
  let city2 := orUnknown station2.city
  let sameTypeCheck : Bool :=
    if station1.type = station2.type then
      match station1.type with
      | .metro => areMetroStationsConnected metroLines station1 station2
      | .bus => areBusStationsConnected station1 station2
    else false
  if city1 = "unknown" ∨ city2 = "unknown" then
    if dist station1.location station2.location > 30 then false else sameTypeCheck
  else if ¬ (city1.toLower = city2.toLower) then false
  else sameTypeCheck

/-- `Math.min(Math.max(directDistance * 1.5, 10), 30)` — the search radius
computed by `generateTransitRoutes` (`part_003` line 226). -/
def searchRadius (directDistance : ℚ) : ℚ :=
  min (max (directDistance * 1.5) 10) 30

/-- The walk-to-origin-station step (`part_003` lines 303-311). -/
def walkStepTo (fromLoc : Location) (fromStation : Station) : RouteStep :=
  { type := .walk
    fromName := fromLoc.name
    toName := fromStation.name
    duration := jsRound (fromStation.distance * 15)
    distance := fromStation.distance
    instructions := some ("Walk to " ++ fromStation.name)
    location := some fromLoc.coordinates }

/-- The final walking step (`part_003` lines 351-359). -/
def walkStepFrom (toLoc : Location) (toStation : Station) : RouteStep :=
  { type := .walk
    fromName := toStation.name
    toName := toLoc.name
    duration := jsRound (toStation.distance * 15)
    distance := toStation.distance
    instructions := some ("Walk from " ++ toStation.name ++ " to your destination")
    location := some toStation.location }

/-- Transit duration of `part_003` (lines 286-294) and of
`src/utils/transit-finder.ts` (lines 106-114), which are identical:
metro-to-metro 2 min/km, bus-to-bus 4 min/km, mixed 3 min/km plus a 10-minute
transfer penalty, each rounded. -/
def transitDurationP3 (fromStation toStation : Station) (transitDistance : ℚ) : ℤ :=
  if fromStation.type = .metro ∧ toStation.type = .metro then
    jsRound (transitDistance * 2)
  else if fromStation.type = .bus ∧ toStation.type = .bus then
    jsRound (transitDistance * 4)
  else
    jsRound (transitDistance * 3) + 10

/-- The transit step of `part_003` (lines 314-348) and of
`transit-finder.ts` (lines 134-168), identical in both files. -/
def transitStepP3 (fromStation toStation : Station) (transitDistance : ℚ) : RouteStep :=
  if fromStation.type = .metro ∧ toStation.type = .metro then
    { type := .metro
      fromName := fromStation.name
      toName := toStation.name
      duration := transitDurationP3 fromStation toStation transitDistance
      distance := transitDistance
      instructions := some ("Take metro from " ++ fromStation.name ++ " to " ++ toStation.name)
      location := some fromStation.location }
  else if fromStation.type = .bus ∧ toStation.type = .bus then
    { type := .bus
      fromName := fromStation.name
      toName := toStation.name
      duration := transitDurationP3 fromStation toStation transitDistance
      distance := transitDistance
      instructions := some ("Take bus from " ++ fromStation.name ++ " to " ++ toStation.name)
      location := some fromStation.location }
  else
    let transitType := if fromStation.type = .metro then StationType.metro else StationType.bus
    { type := stepOfStationType transitType
      fromName := fromStation.name
      toName := toStation.name
      duration := transitDurationP3 fromStation toStation transitDistance
      distance := transitDistance
      instructions := some ("Take " ++ stationTypeName transitType ++ " from " ++
        fromStation.name ++ " to " ++ toStation.name ++ " (may require transfer)")
      location := some fromStation.location }

/-- The three-step sequence `[walk, transit, walk]` built identically by
`part_003` (lines 302-359) and `transit-finder.ts` (lines 122-179). -/
def buildTransitSteps (fromLoc toLoc : Location) (transitDistance : ℚ)
    (fromStation toStation : Station) : List RouteStep :=
  [ walkStepTo fromLoc fromStation,
    transitStepP3 fromStation toStation transitDistance,
    walkStepFrom toLoc toStation ]

/-- The body of the station-pair loop of `generateTransitRoutes`
(`part_003` lines 256-370): skip identical stations, skip pairs whose transit
distance exceeds `maxReasonableDistance`, skip unconnected pairs, otherwise
emit the three-step route whose `duration` is the sum of the step durations. -/
def routeForPair (dist : Coord → Coord → ℚ) (metroLines : List MetroLine)
    (mkId : Station → Station → String) (fromLoc toLoc : Location)
    (maxReasonableDistance : ℚ) (fromStation toStation : Station) : Option Route :=
  if fromStation.id = toStation.id then none
  else
    let transitDistance := dist fromStation.location toStation.location
    if transitDistance > maxReasonableDistance then none
    else if ¬ areTransitStationsConnected dist metroLines fromStation toStation then none
    else
      let steps := buildTransitSteps fromLoc toLoc transitDistance fromStation toStation
      some { id := mkId fromStation toStation
             duration := sumDurations steps
             steps := steps }

/-- `generateTransitRoutes(from, to)` of `src/unnamed/part_003`
(lines 218-381). -/
def generateTransitRoutes (dist : Coord → Coord → ℚ) (metroLines : List MetroLine)
    (mkId : Station → Station → String) (fromLoc toLoc : Location)
    (fromMetro fromBus toMetro toBus : List Station) : List Route :=
  let directDistance := dist fromLoc.coordinates toLoc.coordinates
  let nearFromStations := findNearestTransitStations fromMetro fromBus 5 (searchRadius directDistance)
  let nearToStations := findNearestTransitStations toMetro toBus 5 (searchRadius directDistance)
  if nearFromStations.isEmpty ∨ nearToStations.isEmpty then []
  else
    let maxReasonableDistance := directDistance * 3
    let routes := nearFromStations.flatMap (fun fromStation =>
      nearToStations.filterMap (fun toStation =>
        routeForPair dist metroLines mkId fromLoc toLoc maxReasonableDistance
          fromStation toStation))
    sortByDuration routes

/-! ## Route generator of `src/utils/transit-finder.ts`

An earlier variant: no distance cap when gathering candidates, three
candidates per endpoint, no pair filtering beyond identity, deterministic
route ids. -/

/-- `findNearestTransitStations(location, maxResults)` of `transit-finder.ts`
(lines 48-69): concatenate, sort by distance, truncate. -/
def findNearestTransitStationsTF (metroStations busStations : List Station)
    (maxResults : ℕ) : List Station :=
  (sortByDistance (metroStations ++ busStations)).take maxResults

/-- The station-pair loop body of `generateTransitRoutes` of
`transit-finder.ts` (lines 92-190): only the identical-station check guards
emission; steps and durations are the same construction as `part_003`. -/
def routeForPairTF (dist : Coord → Coord → ℚ) (fromLoc toLoc : Location)
    (fromStation toStation : Station) : Option Route :=
  if fromStation.id = toStation.id then none
  else
    let transitDistance := dist fromStation.location toStation.location
    let steps := buildTransitSteps fromLoc toLoc transitDistance fromStation toStation
    some { id := "route-" ++ fromStation.id ++ "-" ++ toStation.id
           duration := sumDurations steps
           steps := steps }

/-- `generateTransitRoutes(from, to)` of `src/utils/transit-finder.ts`
(lines 77-199). -/
def generateTransitRoutesTF (dist : Coord → Coord → ℚ) (fromLoc toLoc : Location)
    (fromMetro fromBus toMetro toBus : List Station) : List Route :=
  let nearFromStations := findNearestTransitStationsTF fromMetro fromBus 3
  let nearToStations := findNearestTransitStationsTF toMetro toBus 3
  if nearFromStations.isEmpty ∨ nearToStations.isEmpty then []
  else
    let routes := nearFromStations.flatMap (fun fromStation =>
      nearToStations.filterMap (fun toStation =>
        routeForPairTF dist fromLoc toLoc fromStation toStation))
    sortByDuration routes

/-! ## Route generator of `src/utils/routing.ts`

External inputs made explicit: `hav` is `haversineDistance` from the OSM
client; `sameLine` is the Overpass-backed `areStationsOnSameLine` probe (its
`catch` branch yields `false`, absorbed into the oracle); the two station
lists are the result of `fetchTransitStationsForRoute`. -/

/-- `checkSameLine(startStation, endStation)` (`routing.ts` lines 107-120). -/
def checkSameLine (sameLine : String → String → Bool)
    (startStation endStation : Station) : Bool :=
  if startStation.type = .metro ∧ endStation.type = .metro ∧
      (startStation.city = endStation.city ∨ startStation.city = "unknown" ∨
        endStation.city = "unknown") then
    sameLine startStation.id endStation.id
  else false

/-- Candidate selection of `generateRoutes` (`routing.ts` lines 140-168):
the three nearest metro stations; only when that list is empty, the two
nearest bus stations instead. -/
def selectCandidateStations (stations : List Station) : List Station :=
  let metros := (sortByDistance (stations.filter (fun s => s.type = .metro))).take 3
  if metros.isEmpty then
    (sortByDistance (stations.filter (fun s => s.type = .bus))).take 2
  else metros

/-- The station-pair loop body of `generateRoutes` (`routing.ts`
lines 173-267): walking 15 min/km; metro-to-metro 1.5 min/km on the same
line, otherwise 2 min/km; every other combination 3 min/km. -/
def routeForPairR (hav : Coord → Coord → ℚ) (sameLine : String → String → Bool)
    (fromLocation toLocation : Location) (startStation endStation : Station) :
    Option Route :=
  if startStation.id = endStation.id then none
  else
    let onSameLine := checkSameLine sameLine startStation endStation
    let transitDistance := hav startStation.location endStation.location
    let transitDuration : ℤ :=
      if startStation.type = .metro ∧ endStation.type = .metro then
        if onSameLine then jsRound (transitDistance * 1.5)
        else jsRound (transitDistance * 2)
      else jsRound (transitDistance * 3)
    let transitStep : RouteStep :=
      if startStation.type = .metro ∧ endStation.type = .metro then
        { type := .metro
          fromName := startStation.name
          toName := endStation.name
          duration := transitDuration
          distance := transitDistance
          instructions := some (if onSameLine then
              "Take metro directly from " ++ startStation.name ++ " to " ++ endStation.name
            else
              "Take metro from " ++ startStation.name ++ " to " ++ endStation.name ++
                " (may require transfer)")
          location := some startStation.location }
      else
        { type := stepOfStationType startStation.type
          fromName := startStation.name
          toName := endStation.name
          duration := transitDuration
          distance := transitDistance
          instructions := some ("Take " ++ stationTypeName startStation.type ++ " from " ++
            startStation.name ++ " to " ++ endStation.name)
          location := some startStation.location }
    let steps : List RouteStep :=
      [ { type := .walk
          fromName := fromLocation.name
          toName := startStation.name
          duration := jsRound (startStation.distance * 15)
          distance := startStation.distance
          instructions := some ("Walk to " ++ startStation.name)
          location := some fromLocation.coordinates },
        transitStep,
        { type := .walk
          fromName := endStation.name
          toName := toLocation.name
          duration := jsRound (endStation.distance * 15)
          distance := endStation.distance
          instructions := some ("Walk from " ++ endStation.name ++ " to your destination")
          location := some endStation.location } ]
    some { id := "route-" ++ startStation.id ++ "-" ++ endStation.id
           duration := sumDurations steps
           steps := steps }

/-- `generateRoutes(fromLocation, toLocation)` of `src/utils/routing.ts`
(lines 122-279). -/
def generateRoutes (hav : Coord → Coord → ℚ) (sameLine : String → String → Bool)
    (fromLocation toLocation : Location)
    (originStations destinationStations : List Station) : List Route :=
  if originStations.isEmpty ∨ destinationStations.isEmpty then []
  else
    let nearestToStart := selectCandidateStations originStations
    let nearestToEnd := selectCandidateStations destinationStations
    let routes := nearestToStart.flatMap (fun startStation =>
      nearestToEnd.filterMap (fun endStation =>
        routeForPairR hav sameLine fromLocation toLocation startStation endStation))
    sortByDuration routes

/-! ## Route invariants and concrete evaluation fixtures -/

/-- The route-shape invariant stated by the specification for generated
routes: at least three steps, walking first and last, and a `duration` equal
to the sum of the step durations. -/
def routeWellFormed (r : Route) : Prop :=
  3 ≤ r.steps.length
  ∧ r.steps.head?.map RouteStep.type = some StepType.walk
  ∧ r.steps.getLast?.map RouteStep.type = some StepType.walk
  ∧ r.duration = sumDurations r.steps

/-- A feature tagged only `railway=station` (no `station` tag, no network). -/
def c6Tags : Tags := { railway := some ("station") }

/-- A well-formed node element carrying `c6Tags`. -/
def c6Elem : OsmElement :=
  { type := "node", id := 7, lat := some 28, lon := some 77, tags := some c6Tags }

/-- The station the parser produces from `c6Elem` (name falls back to the
synthesized placeholder, city is undetermined). -/
def c6Station : Station :=
  { id := "osm-7", name := "Metro Station", type := .metro, city := "unknown",
    location := { lat := 28, lng := 77 }, distance := 0, osmTags := c6Tags,
    network := "unknown" }

/-- A node element whose latitude is exactly 0 (equator) but otherwise
well-formed. -/
def c10Elem : OsmElement :=
  { type := "node", id := 1, lat := some 0, lon := some 77,
    tags := some { railway := some ("station"), name := some ("Zero") } }

/-- A well-formed companion element list. -/
def c10Rest : List OsmElement :=
  [ { type := "node", id := 2, lat := some 28, lon := some 77,
      tags := some { name := some ("Good") } } ]

/-- Origin of the concrete two-bus-station scenario. -/
def c2From : Location := { name := "A", coordinates := { lat := 0, lng := 0 } }

/-- Destination of the concrete two-bus-station scenario. -/
def c2To : Location := { name := "B", coordinates := { lat := 5, lng := 5 } }

/-- A bus station 1 km from the origin, in a known city. -/
def c2Bs1 : Station :=
  { id := "b1", name := "BS1", type := .bus, city := "Delhi",
    location := { lat := 1, lng := 1 }, distance := 1, network := "" }

/-- A bus station 1 km from the destination, in the same known city. -/
def c2Bs2 : Station :=
  { id := "b2", name := "BS2", type := .bus, city := "Delhi",
    location := { lat := 2, lng := 2 }, distance := 1, network := "" }

/-- The single route the `part_003` generator produces from the
`c2Bs1`/`c2Bs2` scenario under the constant distance oracle 1. -/
def c2Route : Route :=
  { id := "r1", duration := 34,
    steps :=
      [ { type := .walk, fromName := "A", toName := "BS1", duration := 15,
          distance := 1, instructions := some ("Walk to BS1"),
          location := some { lat := 0, lng := 0 } },
        { type := .bus, fromName := "BS1", toName := "BS2", duration := 4,
          distance := 1, instructions := some ("Take bus from BS1 to BS2"),
          location := some { lat := 1, lng := 1 } },
        { type := .walk, fromName := "BS2", toName := "B", duration := 15,
          distance := 1,
          instructions := some ("Walk from BS2 to your destination"),
          location := some { lat := 2, lng := 2 } } ] }

/-- A station 1 km from its endpoint, for the radius-filter instance. -/
def c3Station : Station :=
  { id := "s", name := "S", type := .metro, city := "Delhi",
    location := { lat := 1, lng := 1 }, distance := 1, network := "" }

/-- Distance oracle of the pruning instance: 5 km between the endpoints
(whose latitudes are 0), 40 km between the stations (latitudes 1). -/
def c4Dist : Coord → Coord → ℚ :=
  fun a _ => if a.lat = 0 then 5 else 40

/-- Origin of the pruning instance. -/
def c4From : Location := { name := "A", coordinates := { lat := 0, lng := 0 } }

/-- Destination of the pruning instance. -/
def c4To : Location := { name := "B", coordinates := { lat := 0, lng := 1 } }

/-- Candidate origin station of the pruning instance. -/
def c4Fs : Station :=
  { id := "s1", name := "S1", type := .bus, city := "Delhi",
    location := { lat := 1, lng := 0 }, distance := 1, network := "" }

/-- Candidate destination station of the pruning instance, 40 km away from
`c4Fs` under `c4Dist`. -/
def c4Ts : Station :=
  { id := "s2", name := "S2", type := .bus, city := "Delhi",
    location := { lat := 1, lng := 1 }, distance := 1, network := "" }

/-- Origin of the duration-arithmetic scenario. -/
def c5From : Location := { name := "A", coordinates := { lat := 0, lng := 0 } }

/-- Destination of the duration-arithmetic scenario. -/
def c5To : Location := { name := "B", coordinates := { lat := 1, lng := 1 } }

/-- Metro station 0.4 km from the origin. -/
def c5Start : Station :=
  { id := "s1", name := "S1", type := .metro, city := "delhi",
    location := { lat := 2, lng := 2 }, distance := 0.4, network := "DMRC" }

/-- Metro station 0.3 km from the destination, on the same line per the
same-line oracle. -/
def c5End : Station :=
  { id := "s2", name := "S2", type := .metro, city := "delhi",
    location := { lat := 3, lng := 3 }, distance := 0.3, network := "DMRC" }

/-- A metro station 2 km away. -/
def c7Metro : Station :=
  { id := "m1", name := "M", type := .metro, city := "Delhi",
    location := { lat := 0, lng := 0 }, distance := 2, network := "DMRC" }

/-- A bus station 1 km away — nearer than `c7Metro`. -/
def c7Bus : Station :=
  { id := "b1", name := "Bst", type := .bus, city := "Delhi",
    location := { lat := 1, lng := 1 }, distance := 1, network := "" }

/-! ## Theorems -/

/-- NaN absorption for multiplication, right operand. -/
theorem jsMul_undef_right (x : JSNum) : jsMul x JSNum.undef = JSNum.nan := by
  cases x <;> rfl

theorem jsMul_nan_left (x : JSNum) : jsMul JSNum.nan x = JSNum.nan := by
  cases x <;> rfl

theorem jsAdd_nan_left (x : JSNum) : jsAdd JSNum.nan x = JSNum.nan := by
  cases x <;> rfl

theorem jsAdd_nan_both : jsAdd JSNum.nan JSNum.nan = JSNum.nan := rfl

theorem jsSqrt_nan : jsSqrt JSNum.nan = JSNum.nan := rfl

theorem jsAtan2_nan_right (y : JSNum) : jsAtan2 y JSNum.nan = JSNum.nan := by
  cases y <;> rfl

theorem jsToDeg_nan : jsToDeg JSNum.nan = JSNum.nan := rfl

/-- C1: the claim states that `intermediatePointOnGreatCircle` at fraction 0
returns the first endpoint and at fraction 1 the second.  On the code as
written it does not: the slips `Math.cosλ1` / `Math.cosλ2` (source lines 285
and 289) make the Cartesian coordinate `x` NaN, which poisons both outputs,
so the function returns NaN coordinates for every input, fractions 0 and 1
included. -/
theorem c1_intermediatePoint_always_nan
    (lat1 lon1 lat2 lon2 fraction : JSNum) :
    intermediatePointOnGreatCircle lat1 lon1 lat2 lon2 fraction =
      (JSNum.nan, JSNum.nan) := by
  unfold intermediatePointOnGreatCircle
  simp only [jsMul_undef_right, jsAdd_nan_both, jsMul_nan_left, jsAdd_nan_left,
    jsSqrt_nan, jsAtan2_nan_right, jsToDeg_nan]

/-- C10: an element whose (effective) latitude or longitude is exactly 0 is
dropped by the parser loop, exactly as when the coordinates are absent: the
`if (!lat || !lon) continue` check tests JavaScript falsiness, and `0` is
falsy. -/
theorem c10_zero_coordinate_dropped (hav : ℚ → ℚ → ℚ → ℚ → ℚ)
    (centerLat centerLng : ℚ) (e : OsmElement) (rest : List OsmElement)
    (seenNames : List String)
    (h : effLat e = some 0 ∨ effLon e = some 0) :
    processOsmDataAux hav centerLat centerLng (e :: rest) seenNames =
        processOsmDataAux hav centerLat centerLng rest seenNames
    ∧ processOsmDataAux hav centerLat centerLng (e :: rest) seenNames =
        processOsmDataAux hav centerLat centerLng
          ({ e with lat := none, lon := none, center := none } :: rest) seenNames := by
  have hmissLat : effLat { e with lat := none, lon := none, center := none } = none := by
    simp [effLat]
  have hskipMiss :
      processOsmDataAux hav centerLat centerLng
          ({ e with lat := none, lon := none, center := none } :: rest) seenNames =
        processOsmDataAux hav centerLat centerLng rest seenNames := by
    cases htags : e.tags with
    | none => simp [processOsmDataAux, htags]
    | some tags => simp [processOsmDataAux, htags, effLat, effLon]
  have hskip :
      processOsmDataAux hav centerLat centerLng (e :: rest) seenNames =
        processOsmDataAux hav centerLat centerLng rest seenNames := by
    cases htags : e.tags with
    | none => simp [processOsmDataAux, htags]
    | some tags =>
      rcases h with h0 | h0
      · cases hlon : effLon e with
        | none => simp [processOsmDataAux, htags, h0, hlon]
        | some lo => simp [processOsmDataAux, htags, h0, hlon]
      · cases hlat : effLat e with
        | none => simp [processOsmDataAux, htags, hlat]
        | some la => simp [processOsmDataAux, htags, hlat, h0]
  exact ⟨hskip, hskip.trans hskipMiss.symm⟩

/-- C10 witness: the equator-latitude element `c10Elem` is dropped. -/
theorem c10_witness :
    (effLat c10Elem = some 0 ∨ effLon c10Elem = some 0)
    ∧ processOsmDataAux (fun _ _ _ _ => 0) 0 0 (c10Elem :: c10Rest) [] =
        processOsmDataAux (fun _ _ _ _ => 0) 0 0 c10Rest [] :=
  ⟨Or.inl (by decide),
    (c10_zero_coordinate_dropped (fun _ _ _ _ => 0) 0 0 c10Elem c10Rest []
      (Or.inl (by decide))).1⟩

/-- Every station produced by the parser loop carries the type the classifier
assigns to its stored raw tags. -/
theorem processOsmDataAux_type_eq (hav : ℚ → ℚ → ℚ → ℚ → ℚ)
    (centerLat centerLng : ℚ) :
    ∀ (elements : List OsmElement) (seenNames : List String) (s : Station),
      s ∈ processOsmDataAux hav centerLat centerLng elements seenNames →
      s.type = stationTypeOfTags s.osmTags := by
  intro elements
  induction elements with
  | nil => intro seen s hs; simp [processOsmDataAux] at hs
  | cons e rest ih =>
    intro seen s hs
    cases htags : e.tags with
    | none =>
      simp only [processOsmDataAux, htags] at hs
      exact ih seen s hs
    | some tags =>
      cases hlat : effLat e with
      | none =>
        simp only [processOsmDataAux, htags, hlat] at hs
        exact ih seen s hs
      | some la =>
        cases hlon : effLon e with
        | none =>
          simp only [processOsmDataAux, htags, hlat, hlon] at hs
          exact ih seen s hs
        | some lo =>
          simp only [processOsmDataAux, htags, hlat, hlon] at hs
          split at hs
          · exact ih seen s hs
          · split at hs
            · exact ih seen s hs
            · rcases List.mem_cons.mp hs with heq | hmem
              · subst heq; rfl
              · exact ih _ s hmem

/-- C6 counterexample: the feature tagged only `railway=station` — without
`station=subway`, `station=metro` or a known network — is classified `metro`
by the parser, while the claimed criterion
(`railway=station` AND `station ∈ {subway, metro}`, or a known network)
classifies it `bus`. -/
theorem c6_counterexample :
    (processOsmData (fun _ _ _ _ => 0) 0 0 [c6Elem]).map Station.type =
        [StationType.metro]
    ∧ ¬ specIsMetro c6Tags :=
  ⟨rfl, by decide⟩

/-- C6 (amended): the parser classifies a feature as `metro` exactly when
`railway=station` OR `station=subway` OR `station=metro` OR
`network="Delhi Metro"` (a disjunction, not the claimed conjunction), and
`bus` otherwise; every parsed station's `type` agrees with that classifier on
its stored tags. -/
theorem c6_amended_classification :
    (∀ tags : Tags, stationTypeOfTags tags = StationType.metro ↔
      (tags.railway = some ("station") ∨ tags.station = some ("subway") ∨
        tags.station = some ("metro") ∨ tags.network = some ("Delhi Metro")))
    ∧ ∀ (hav : ℚ → ℚ → ℚ → ℚ → ℚ) (centerLat centerLng : ℚ)
        (elements : List OsmElement) (s : Station),
        s ∈ processOsmData hav centerLat centerLng elements →
        s.type = stationTypeOfTags s.osmTags := by
  constructor
  · intro tags
    unfold stationTypeOfTags
    split
    next hcond => simp [hcond]
    next hcond => simp [hcond]
  · intro hav centerLat centerLng elements s hs
    exact processOsmDataAux_type_eq hav centerLat centerLng elements [] s hs

/-- C6 witness: the concrete parsed station `c6Station` (from `c6Elem`)
instantiates the amended parser/classifier agreement. -/
theorem c6_witness :
    c6Station.type = stationTypeOfTags c6Station.osmTags :=
  c6_amended_classification.2 (fun _ _ _ _ => 0) 0 0 [c6Elem] c6Station (by decide)

unseal String.mapAux in
/-- C8 counterexample: `"zzz"` matches no table entry, exactly or partially,
yet the resolver does not return `null` — it returns the random-fallback
Ahmedabad coordinate. -/
theorem c8_counterexample :
    getCoordinatesForLocation 0 0 ("zzz") ≠ none
    ∧ lookupLocation ("zzz") = none :=
  ⟨by decide, by decide⟩

/-- C8 (amended): the resolver never returns `null`; on an input that matches
no known location it returns the pseudo-random fallback coordinate
`{ lat: 23.0225 + r1·0.05, lng: 72.5714 + r2·0.05 }` in Ahmedabad.  (In the
model the function is total, matching the source, which cannot throw.) -/
theorem c8_amended_no_null (r1 r2 : ℚ) (locationName : String) :
    getCoordinatesForLocation r1 r2 locationName ≠ none
    ∧ (lookupLocation locationName = none →
        getCoordinatesForLocation r1 r2 locationName =
          some { lat := 23.0225 + r1 * 0.05, lng := 72.5714 + r2 * 0.05 }) := by
  unfold getCoordinatesForLocation
  cases h : lookupLocation locationName <;> simp [h]

unseal String.mapAux in
/-- C8 witness: the unmatched input `"zzz"` with both random draws equal to 1
yields the fallback coordinate. -/
theorem c8_witness :
    lookupLocation ("zzz") = none
    ∧ getCoordinatesForLocation 1 1 ("zzz") =
        some { lat := 23.0225 + 1 * 0.05, lng := 72.5714 + 1 * 0.05 } :=
  ⟨by decide, (c8_amended_no_null 1 1 ("zzz")).2 (by decide)⟩

/-- The transit step always records the station-to-station distance. -/
theorem transitStepP3_distance (a b : Station) (d : ℚ) :
    (transitStepP3 a b d).distance = d := by
  unfold transitStepP3
  split
  · rfl
  · split
    · rfl
    · rfl

/-- The transit step is never a walking step. -/
theorem transitStepP3_type_ne_walk (a b : Station) (d : ℚ) :
    (transitStepP3 a b d).type ≠ StepType.walk := by
  unfold transitStepP3
  split
  · simp
  · split
    · simp
    · unfold stepOfStationType
      split <;> simp

/-- Any route emitted by the `part_003` pair loop satisfies the route-shape
invariant. -/
theorem routeForPair_wellFormed {dist : Coord → Coord → ℚ}
    {metroLines : List MetroLine} {mkId : Station → Station → String}
    {fromLoc toLoc : Location} {maxR : ℚ} {fs ts : Station} {r : Route}
    (h : routeForPair dist metroLines mkId fromLoc toLoc maxR fs ts = some r) :
    routeWellFormed r := by
  unfold routeForPair at h
  split at h
  · exact Option.noConfusion h
  · simp only [] at h
    split at h
    · exact Option.noConfusion h
    · split at h
      · exact Option.noConfusion h
      · injection h with h
        subst h
        exact ⟨le_rfl, rfl, rfl, rfl⟩

/-- Any route emitted by the `transit-finder.ts` pair loop satisfies the
route-shape invariant. -/
theorem routeForPairTF_wellFormed {dist : Coord → Coord → ℚ}
    {fromLoc toLoc : Location} {fs ts : Station} {r : Route}
    (h : routeForPairTF dist fromLoc toLoc fs ts = some r) :
    routeWellFormed r := by
  unfold routeForPairTF at h
  split at h
  · exact Option.noConfusion h
  · injection h with h
    subst h
    exact ⟨le_rfl, rfl, rfl, rfl⟩

/-- C2: every route produced by the route generator (both the `part_003`
generator and the `transit-finder.ts` variant) has at least three steps, a
walking first and last step, and a `duration` equal to the sum of its step
durations. -/
theorem c2_route_invariants (dist : Coord → Coord → ℚ)
    (metroLines : List MetroLine) (mkId : Station → Station → String)
    (fromLoc toLoc : Location) (fromMetro fromBus toMetro toBus : List Station) :
    (∀ r ∈ generateTransitRoutes dist metroLines mkId fromLoc toLoc
        fromMetro fromBus toMetro toBus, routeWellFormed r)
    ∧ (∀ r ∈ generateTransitRoutesTF dist fromLoc toLoc
        fromMetro fromBus toMetro toBus, routeWellFormed r) := by
  constructor
  · intro r hr
    simp only [generateTransitRoutes] at hr
    split at hr
    · simp at hr
    · simp only [sortByDuration, List.mem_mergeSort] at hr
      obtain ⟨fs, _, hr⟩ := List.mem_flatMap.mp hr
      obtain ⟨ts, _, heq⟩ := List.mem_filterMap.mp hr
      exact routeForPair_wellFormed heq
  · intro r hr
    simp only [generateTransitRoutesTF] at hr
    split at hr
    · simp at hr
    · simp only [sortByDuration, List.mem_mergeSort] at hr
      obtain ⟨fs, _, hr⟩ := List.mem_flatMap.mp hr
      obtain ⟨ts, _, heq⟩ := List.mem_filterMap.mp hr
      exact routeForPairTF_wellFormed heq

unseal Rat.ofScientific Rat.mul Rat.add Rat.sub Rat.inv List.mergeSort List.merge String.mapAux in
/-- C2 witness: the concrete route generated from the two-bus-station
scenario is well-formed. -/
theorem c2_witness : routeWellFormed c2Route :=
  (c2_route_invariants (fun _ _ => 1) [] (fun _ _ => "r1") c2From c2To
    [] [c2Bs1] [] [c2Bs2]).1 c2Route (by decide)

/-- C3: the station search radius used by the `part_003` route generator is
`min(max(directDistance * 1.5, 10), 30)`, hence always within [10 km, 30 km],
and every candidate station the generator then considers lies within that
radius. -/
theorem c3_search_radius (d : ℚ) (metroStations busStations : List Station)
    (maxResults : ℕ) :
    searchRadius d = min (max (d * 1.5) 10) 30
    ∧ 10 ≤ searchRadius d
    ∧ searchRadius d ≤ 30
    ∧ ∀ s ∈ findNearestTransitStations metroStations busStations maxResults
        (searchRadius d), s.distance ≤ min (max (d * 1.5) 10) 30 := by
  refine ⟨rfl, le_min (le_max_right _ _) (by norm_num), min_le_right _ _, ?_⟩
  intro s hs
  simp only [findNearestTransitStations] at hs
  have hs2 := List.mem_of_mem_take hs
  rw [sortByDistance, List.mem_mergeSort, List.mem_append] at hs2
  rcases hs2 with h2 | h2 <;>
    exact of_decide_eq_true (List.mem_filter.mp h2).2

unseal Rat.ofScientific Rat.mul Rat.add Rat.sub Rat.inv List.mergeSort List.merge in
/-- C3 witness: with direct distance 0 the radius is 10 km and the concrete
candidate `c3Station` is within it. -/
theorem c3_witness : c3Station.distance ≤ min (max ((0 : ℚ) * 1.5) 10) 30 :=
  (c3_search_radius 0 [c3Station] [] 5).2.2.2 c3Station (by decide)

/-- Any route emitted by the `part_003` pair loop has all its non-walking
steps within the distance cap passed to the loop. -/
theorem routeForPair_transit_le {dist : Coord → Coord → ℚ}
    {metroLines : List MetroLine} {mkId : Station → Station → String}
    {fromLoc toLoc : Location} {maxR : ℚ} {fs ts : Station} {r : Route}
    (h : routeForPair dist metroLines mkId fromLoc toLoc maxR fs ts = some r) :
    ∀ st ∈ r.steps, st.type ≠ StepType.walk → st.distance ≤ maxR := by
  unfold routeForPair at h
  split at h
  · exact Option.noConfusion h
  · simp only [] at h
    split at h
    next => exact Option.noConfusion h
    next hle =>
      split at h
      · exact Option.noConfusion h
      · injection h with h
        subst h
        intro st hst hwalk
        simp only [buildTransitSteps, List.mem_cons, List.not_mem_nil, or_false] at hst
        rcases hst with rfl | rfl | rfl
        · exact absurd rfl hwalk
        · rw [transitStepP3_distance]
          exact not_lt.mp hle
        · exact absurd rfl hwalk

/-- C4: a candidate pair whose station-to-station distance exceeds three
times the direct origin-destination distance is rejected by the pair loop
(no route is generated from it), and consequently every non-walking step of
every generated route has distance at most `3 × directDistance`. -/
theorem c4_unreasonable_pair_pruned (dist : Coord → Coord → ℚ)
    (metroLines : List MetroLine) (mkId : Station → Station → String)
    (fromLoc toLoc : Location) (fs ts : Station) :
    (dist fs.location ts.location > 3 * dist fromLoc.coordinates toLoc.coordinates →
      routeForPair dist metroLines mkId fromLoc toLoc
        (dist fromLoc.coordinates toLoc.coordinates * 3) fs ts = none)
    ∧ ∀ (fromMetro fromBus toMetro toBus : List Station) (r : Route),
        r ∈ generateTransitRoutes dist metroLines mkId fromLoc toLoc
          fromMetro fromBus toMetro toBus →
        ∀ st ∈ r.steps, st.type ≠ StepType.walk →
          st.distance ≤ 3 * dist fromLoc.coordinates toLoc.coordinates := by
  constructor
  · intro h
    have h3 : dist fs.location ts.location >
        dist fromLoc.coordinates toLoc.coordinates * 3 := by
      rwa [mul_comm] at h
    unfold routeForPair
    split
    · rfl
    · simp [h3]
  · intro fromMetro fromBus toMetro toBus r hr st hst hwalk
    simp only [generateTransitRoutes] at hr
    split at hr
    · simp at hr
    · simp only [sortByDuration, List.mem_mergeSort] at hr
      obtain ⟨fs2, _, hr⟩ := List.mem_flatMap.mp hr
      obtain ⟨ts2, _, heq⟩ := List.mem_filterMap.mp hr
      have := routeForPair_transit_le heq st hst hwalk
      rwa [mul_comm] at this

unseal Rat.mul in
/-- C4 witness: with direct distance 5 km, the only candidate pairing, lying
40 km apart, is rejected (the `5 × 3 = 15` km ceiling is exceeded). -/
theorem c4_witness :
    c4Dist c4Fs.location c4Ts.location >
        3 * c4Dist c4From.coordinates c4To.coordinates
    ∧ routeForPair c4Dist [] (fun _ _ => "r") c4From c4To
        (c4Dist c4From.coordinates c4To.coordinates * 3) c4Fs c4Ts = none :=
  ⟨by decide,
    (c4_unreasonable_pair_pruned c4Dist [] (fun _ _ => "r") c4From c4To
      c4Fs c4Ts).1 (by decide)⟩

unseal Rat.ofScientific Rat.mul Rat.add Rat.sub Rat.inv List.mergeSort List.merge in
/-- C5: a route built from a 0.4 km walk, a 6.0 km same-line metro leg and a
0.3 km walk has duration `round(0.4·15) + round(6.0·1.5) + round(0.3·15)
= 6 + 9 + 5 = 20` minutes, under the `routing.ts` duration model (walking
15 min/km, same-line metro 1.5 min/km, each leg rounded). -/
theorem c5_duration_arithmetic :
    (generateRoutes (fun _ _ => 6) (fun _ _ => true) c5From c5To
        [c5Start] [c5End]).map
        (fun r => (r.duration, r.steps.map (fun st => (st.type, st.duration, st.distance)))) =
      [(20, [(StepType.walk, 6, 0.4), (StepType.metro, 9, 6), (StepType.walk, 5, 0.3)])] := by
  decide

unseal Rat.mul List.mergeSort List.merge in
/-- C7 counterexample: in the `part_003` candidate gathering
(`findNearestTransitStations`), a nearer bus station precedes a metro
station, and the bus station is included even though a metro station was
found — the merged list is ordered by distance only, with no metro
preference. -/
theorem c7_counterexample :
    findNearestTransitStations [c7Metro] [c7Bus] 5 10 = [c7Bus, c7Metro]
    ∧ (findNearestTransitStations [c7Metro] [c7Bus] 5 10).head?.map Station.type =
        some StationType.bus :=
  ⟨by decide, by decide⟩

/-- Membership in the distance-sorted list is membership in the list. -/
theorem sortByDistance_mem {s : Station} {l : List Station} :
    s ∈ sortByDistance l ↔ s ∈ l := by
  simp [sortByDistance]

/-- C7 (amended): the metro-first preference holds for the `routing.ts`
generator: its candidate list consists of metro stations whenever the fetched
list contains any, and of bus stations exactly when it contains none.  (The
`part_003`/`transit-finder.ts` variant instead merges metro and bus
candidates by distance with no preference — see the counterexample.) -/
theorem c7_amended_metro_preference (stations : List Station) :
    (stations.filter (fun s => s.type = StationType.metro) ≠ [] →
      ∀ s ∈ selectCandidateStations stations, s.type = StationType.metro)
    ∧ (stations.filter (fun s => s.type = StationType.metro) = [] →
      ∀ s ∈ selectCandidateStations stations, s.type = StationType.bus) := by
  constructor
  · intro hne s hs
    simp only [selectCandidateStations] at hs
    split at hs
    next hemp =>
      exfalso
      apply hne
      rw [List.isEmpty_iff] at hemp
      rcases List.take_eq_nil_iff.mp hemp with h3 | h3
      · exact absurd h3 (by norm_num)
      · have hp := List.mergeSort_perm
          (stations.filter (fun s => s.type = StationType.metro))
          (fun a b => a.distance ≤ b.distance)
        rw [sortByDistance] at h3
        rw [h3] at hp
        exact hp.symm.eq_nil
    next hemp =>
      have h4 := sortByDistance_mem.mp (List.mem_of_mem_take hs)
      exact of_decide_eq_true (List.mem_filter.mp h4).2
  · intro heq s hs
    simp only [selectCandidateStations] at hs
    split at hs
    next =>
      have h4 := sortByDistance_mem.mp (List.mem_of_mem_take hs)
      exact of_decide_eq_true (List.mem_filter.mp h4).2
    next hemp =>
      exfalso
      apply hemp
      rw [heq]
      simp [sortByDistance]

unseal Rat.mul List.mergeSort List.merge in
/-- C7 witness: with a single metro candidate, the `routing.ts` candidate
selection yields only metro stations. -/
theorem c7_witness :
    [c7Metro].filter (fun s => s.type = StationType.metro) ≠ []
    ∧ c7Metro.type = StationType.metro :=
  ⟨by decide,
    (c7_amended_metro_preference [c7Metro]).1 (by decide) c7Metro (by decide)⟩

/-- The duration sort produces a list that is pairwise nondecreasing in
`duration`. -/
theorem sortByDuration_pairwise (routes : List Route) :
    List.Pairwise (fun a b : Route => a.duration ≤ b.duration)
      (sortByDuration routes) := by
  have h := @List.sorted_mergeSort Route
    (fun a b : Route => decide (a.duration ≤ b.duration))
    (fun a b c h1 h2 => by
      simp only [decide_eq_true_eq] at h1 h2 ⊢
      exact le_trans h1 h2)
    (fun a b => by
      simp only [Bool.or_eq_true, decide_eq_true_eq]
      exact le_total a.duration b.duration)
    routes
  unfold sortByDuration
  exact h.imp (fun hab => by simpa using hab)

/-- C9: both route generators return their routes sorted ascending by total
duration. -/
theorem c9_routes_sorted (dist : Coord → Coord → ℚ) (metroLines : List MetroLine)
    (mkId : Station → Station → String) (fromLoc toLoc : Location)
    (fromMetro fromBus toMetro toBus : List Station)
    (hav : Coord → Coord → ℚ) (sameLine : String → String → Bool)
    (originStations destinationStations : List Station) :
    List.Pairwise (fun a b : Route => a.duration ≤ b.duration)
        (generateTransitRoutes dist metroLines mkId fromLoc toLoc
          fromMetro fromBus toMetro toBus)
    ∧ List.Pairwise (fun a b : Route => a.duration ≤ b.duration)
        (generateRoutes hav sameLine fromLoc toLoc
          originStations destinationStations) := by
  constructor
  · simp only [generateTransitRoutes]
    split
    · exact List.Pairwise.nil
    · exact sortByDuration_pairwise _
  · simp only [generateRoutes]
    split
    · exact List.Pairwise.nil
    · exact sortByDuration_pairwise _

end MetroSathi
